import Mathlib

/-!
Shallow embedding of the reaction-tester game's core: the persistent score
ledger with derived statistics and achievements (src/utils/save_manager.py)
and the gameplay timing state machine (src/scenes/game_scene.py).

Modelling conventions:
* Python floats (clock readings, wait durations, averages) are embedded as ℚ.
* Reaction times in milliseconds are embedded as ℤ (Python ints).
* Python dicts whose insertion order matters (`by_difficulty`, used by the
  favourite-difficulty computation) are embedded as association lists kept in
  insertion order.
* File I/O is out of scope: `save_scores` / `save_achievements` are
  write-through calls with no effect on the in-memory state modelled here;
  `load_scores` is a pure function of the (parsed) file contents.
* Rendering, colours, particles, sounds and screen-shake fields are visual
  collaborators (spec §1 OUT OF SCOPE); sound and particle calls are kept as
  opaque effects, pure colour/shake fields are dropped.
-/

set_option maxRecDepth 8000

namespace ReactionTester

/-- Python's built-in `round` on a rational: round half to even. -/
def pyRound (x : ℚ) : ℤ :=
  let f : ℤ := ⌊x⌋
  let r : ℚ := x - f
  if r < 1/2 then f
  else if 1/2 < r then f + 1
  else if f % 2 = 0 then f else f + 1

/-- Python's `sorted` on a list of ints: stable ascending sort. -/
def pySorted (l : List ℤ) : List ℤ := List.insertionSort (· ≤ ·) l

/-- Python `l[-limit:]` for `limit > 0` is the suffix of length `limit`
(`l[-0:]` would be the whole list). -/
def pyTakeLast (l : List ℤ) (limit : ℕ) : List ℤ :=
  if limit = 0 then l else l.drop (l.length - limit)

/-! ## Difficulty profile table (src/config.py, Config.DIFFICULTY_SETTINGS) -/

/-- One entry of `Config.DIFFICULTY_SETTINGS`.  The `fake_signals` key is only
present for "twitchy-god" in the source and is read with
`.get("fake_signals", False)`, so it is embedded as a plain Bool that is
`false` for the other four profiles. -/
structure DifficultyConfig where
  min_wait : ℚ
  max_wait : ℚ
  countdown_enabled : Bool
  warning_time : ℚ
  practice_mode : Bool
  fake_signals : Bool
  excellent_threshold : ℤ
  good_threshold : ℤ
  average_threshold : ℤ
  poor_threshold : ℤ
  merh_threshold : ℤ
deriving DecidableEq

def easy_config : DifficultyConfig :=
  ⟨4, 5, true, 1, true, false, 400, 600, 800, 1000, 1500⟩

def normal_config : DifficultyConfig :=
  ⟨5/2, 9/2, false, 1/2, false, false, 250, 400, 600, 800, 1200⟩

def hard_config : DifficultyConfig :=
  ⟨3/2, 4, false, 1/5, false, false, 180, 300, 450, 600, 900⟩

def beast_config : DifficultyConfig :=
  ⟨4/5, 7/2, false, 0, false, false, 120, 200, 300, 450, 600⟩

def twitchy_god_config : DifficultyConfig :=
  ⟨3/10, 2, false, 0, false, true, 80, 120, 180, 250, 350⟩

def DIFFICULTY_SETTINGS : List (String × DifficultyConfig) :=
  [("easy", easy_config), ("normal", normal_config), ("hard", hard_config),
   ("beast", beast_config), ("twitchy-god", twitchy_god_config)]

/-- `Config.DIFFICULTY_SETTINGS.get(difficulty, Config.DIFFICULTY_SETTINGS["normal"])`
(game_scene.get_difficulty_config): unknown identifiers fall back to "normal". -/
def get_difficulty_config (difficulty : String) : DifficultyConfig :=
  (List.lookup difficulty DIFFICULTY_SETTINGS).getD normal_config

/-! ## Score ledger data model (src/utils/save_manager.py) -/

/-- One attempt record as written by `add_score`:
`{"time_ms": ..., "timestamp": ..., "date": ..., "difficulty": ...}`. -/
structure Attempt where
  time_ms : ℤ
  timestamp : String
  date : String
  difficulty : String
deriving DecidableEq

/-- The per-difficulty `statistics` dict. -/
structure Statistics where
  total_attempts : ℕ
  best_time : Option ℤ
  average_time : Option ℚ
deriving DecidableEq

/-- One value of the `by_difficulty` dict. -/
structure DiffData where
  best_times : List ℤ
  all_attempts : List Attempt
  statistics : Statistics
deriving DecidableEq

/-- The `overall_statistics` dict. -/
structure OverallStats where
  total_attempts : ℕ
  total_playtime : ℕ
  favorite_difficulty : String
deriving DecidableEq

/-- The in-memory `self.scores` document.  Both top-level keys can be absent
(a corrupt or structurally incomplete load), hence the `Option`s.  The
`by_difficulty` dict is an association list in insertion order. -/
structure ScoresData where
  by_difficulty : Option (List (String × DiffData))
  overall_statistics : Option OverallStats
deriving DecidableEq

/-- The in-memory `self.achievements` document.  The `progress` map in the
default structure is never read or written by any operation and is omitted. -/
structure Achievements where
  unlocked : List String
deriving DecidableEq

/-- The mutable state of a `SaveManager` (settings are not involved in any
claim and are omitted; the scene passes the active difficulty explicitly). -/
structure SaveState where
  scores : ScoresData
  achievements : Achievements
deriving DecidableEq

def empty_statistics : Statistics := ⟨0, none, none⟩

def empty_difficulty_data : DiffData := ⟨[], [], empty_statistics⟩

def default_overall : OverallStats := ⟨0, 0, "normal"⟩

/-- `get_default_scores_structure`. -/
def get_default_scores_structure : ScoresData :=
  ⟨some [("easy", empty_difficulty_data), ("normal", empty_difficulty_data),
         ("hard", empty_difficulty_data), ("beast", empty_difficulty_data),
         ("twitchy-god", empty_difficulty_data)],
   some default_overall⟩

/-- Python `m[d] = v` on a dict embedded as an insertion-ordered association
list: replace in place if the key exists, else append. -/
def dictInsert (m : List (String × DiffData)) (d : String) (v : DiffData) :
    List (String × DiffData) :=
  if (List.lookup d m).isSome then
    m.map (fun p => if p.1 = d then (d, v) else p)
  else m ++ [(d, v)]

/-- The `if difficulty not in self.scores["by_difficulty"]` initialisation
step of `add_score`. -/
def ensureKey (m : List (String × DiffData)) (d : String) :
    List (String × DiffData) :=
  if (List.lookup d m).isNone then m ++ [(d, empty_difficulty_data)] else m

/-- Python `max(counts, key=counts.get)` over a dict in insertion order:
the first key attaining the maximal count. -/
def py_max_by (l : List (String × ℕ)) : String :=
  (l.foldl
    (fun acc p => match acc with
      | none => some p
      | some q => if q.2 < p.2 then some p else some q)
    none).elim "" Prod.fst

/-- Python exceptions that the embedding distinguishes. -/
inductive PyErr
  | typeError
  | keyError
deriving DecidableEq

/-- Lines 200-228 of save_manager.py: the per-difficulty update block of
`add_score`, acting on `difficulty_data`: append the attempt, bump
`total_attempts`, update `best_time`, recompute `average_time` and
`best_times` over the appended list, then truncate `all_attempts` to the last
500 entries (note: the average and the best-times list are computed *before*
this truncation). -/
def add_score_dd (dd : DiffData) (reaction_time_ms : ℤ)
    (difficulty now_date now_iso : String) : DiffData :=
  let attempt : Attempt := ⟨reaction_time_ms, now_iso, now_date, difficulty⟩
  let appended := dd.all_attempts ++ [attempt]
  let total1 := dd.statistics.total_attempts + 1
  let best1 : Option ℤ :=
    match dd.statistics.best_time with
    | none => some reaction_time_ms
    | some b => if reaction_time_ms < b then some reaction_time_ms else some b
  let all_times := appended.map Attempt.time_ms
  let avg1 : Option ℚ := some ((all_times.sum : ℚ) / (all_times.length : ℚ))
  let best_times1 := (pySorted all_times).take 20
  let retained :=
    if 500 < appended.length then appended.drop (appended.length - 500)
    else appended
  ⟨best_times1, retained, ⟨total1, best1, avg1⟩⟩

/-- The call `self.check_achievements(reaction_time_ms, difficulty)` at the end
of `add_score`: the method's signature is `check_achievements(self,
latest_time_ms)`, one parameter, but the call passes two positional arguments,
so per Python call semantics it raises `TypeError` before any body runs. -/
def call_check_achievements_2args (_s : SaveState) (_t : ℤ) (_d : String) :
    Except PyErr (SaveState × List String) :=
  .error .typeError

/-- `add_score(reaction_time_ms, difficulty)`.  `reload` is the value the
re-read of the scores file (`self.load_scores.__func__(self)`) would return in
the `"by_difficulty" not in self.scores` branch.  The whole body runs inside
`try/except Exception`, so an exception raised part-way keeps the mutations
made up to that point; the two places an exception can arise are the
`scores["by_difficulty"]` access after a reload that still lacks the key
(KeyError) and the final two-argument `check_achievements` call (TypeError,
see `call_check_achievements_2args`). -/
def add_score (reload : ScoresData) (s : SaveState) (reaction_time_ms : ℤ)
    (difficulty now_date now_iso : String) : SaveState :=
  let scores0 := if s.scores.by_difficulty.isNone then reload else s.scores
  match scores0.by_difficulty with
  | none =>
      -- `scores0["by_difficulty"]` raises KeyError; the outer except swallows
      -- it, and the `self.scores = ...` reassignment already happened
      { s with scores := scores0 }
  | some byDiff =>
      let byDiff1 := ensureKey byDiff difficulty
      let dd := (List.lookup difficulty byDiff1).getD empty_difficulty_data
      let dd1 := add_score_dd dd reaction_time_ms difficulty now_date now_iso
      let byDiff2 := dictInsert byDiff1 difficulty dd1
      let overall0 := scores0.overall_statistics.getD default_overall
      let overall1 := { overall0 with total_attempts := overall0.total_attempts + 1 }
      let counts := byDiff2.map (fun p => (p.1, p.2.statistics.total_attempts))
      let overall2 :=
        if counts.isEmpty then overall1
        else { overall1 with favorite_difficulty := py_max_by counts }
      let scores1 : ScoresData := ⟨some byDiff2, some overall2⟩
      -- save_scores(): write-through, no in-memory effect
      match call_check_achievements_2args ⟨scores1, s.achievements⟩
          reaction_time_ms difficulty with
      | .ok r => r.1
      | .error _ => ⟨scores1, s.achievements⟩

/-! ## Ledger queries (save_manager.py lines 259-378)

Each getter first repairs a missing `by_difficulty` key by resetting
`self.scores` to the default structure (and re-saving), so the getters both
return a value and may mutate the state; they are embedded as
state-and-result pairs.  `get_daily_stats` performs an unguarded
`self.scores["by_difficulty"]` access and is embedded in `Except`. -/

/-- `get_best_times(difficulty, limit)`. -/
def get_best_times (s : SaveState) (difficulty : String) (limit : ℕ) :
    SaveState × List ℤ :=
  let s1 := if s.scores.by_difficulty.isNone then
    { s with scores := get_default_scores_structure } else s
  match s1.scores.by_difficulty with
  | none => (s1, [])
  | some m =>
      match List.lookup difficulty m with
      | none => (s1, [])
      | some dd => (s1, dd.best_times.take limit)

/-- `get_recent_attempts(difficulty, limit)` (returns `all_attempts[-limit:]`). -/
def get_recent_attempts (s : SaveState) (difficulty : String) (limit : ℕ) :
    SaveState × List Attempt :=
  let s1 := if s.scores.by_difficulty.isNone then
    { s with scores := get_default_scores_structure } else s
  match s1.scores.by_difficulty with
  | none => (s1, [])
  | some m =>
      match List.lookup difficulty m with
      | none => (s1, [])
      | some dd =>
          (s1, if limit = 0 then dd.all_attempts
               else dd.all_attempts.drop (dd.all_attempts.length - limit))

/-- `get_statistics(difficulty)`. -/
def get_statistics (s : SaveState) (difficulty : String) :
    SaveState × Statistics :=
  let s1 := if s.scores.by_difficulty.isNone then
    { s with scores := get_default_scores_structure } else s
  match s1.scores.by_difficulty with
  | none => (s1, empty_statistics)
  | some m =>
      match List.lookup difficulty m with
      | none => (s1, empty_statistics)
      | some dd => (s1, dd.statistics)

/-- `get_overall_statistics()`. -/
def get_overall_statistics (s : SaveState) : SaveState × OverallStats :=
  let s1 := if s.scores.by_difficulty.isNone then
    { s with scores := get_default_scores_structure } else s
  match s1.scores.overall_statistics with
  | none =>
      let s2 := { s1 with scores := { s1.scores with overall_statistics := some default_overall } }
      (s2, default_overall)
  | some ov => (s1, ov)

/-- The result dict of `get_daily_stats`. -/
structure DailyStats where
  date : String
  difficulty : String
  attempts : ℕ
  best_time : ℤ
  average_time : ℚ
  total_time : ℤ
deriving DecidableEq

/-- `get_daily_stats(difficulty, date_str)`.  Unlike the four getters above it
has no `try/except` and no missing-key repair: `self.scores["by_difficulty"]`
raises `KeyError` when the loaded document lacks that key. -/
def get_daily_stats (s : SaveState) (difficulty date_str : String) :
    Except PyErr (Option DailyStats) :=
  match s.scores.by_difficulty with
  | none => .error .keyError
  | some m =>
      match List.lookup difficulty m with
      | none => .ok none
      | some dd =>
          match dd.all_attempts.filter (fun a => a.date = date_str) with
          | [] => .ok none
          | a :: rest =>
              let daily := a :: rest
              let times := daily.map Attempt.time_ms
              .ok (some ⟨date_str, difficulty, daily.length,
                         rest.foldl (fun acc b => min acc b.time_ms) a.time_ms,
                         (times.sum : ℚ) / (times.length : ℚ),
                         times.sum⟩)

/-! ## Achievements (save_manager.py lines 421-490) -/

/-- Python `list.sort()` on the unlocked-achievement ids (ascending). -/
def pySortStrings (l : List String) : List String :=
  List.insertionSort (fun a b => ¬ b < a) l

/-- `is_achievement_unlocked(achievement_id)`. -/
def is_achievement_unlocked (s : SaveState) (achievement_id : String) : Bool :=
  achievement_id ∈ s.achievements.unlocked

/-- `unlock_achievement(achievement_id)`: append, keep sorted, persist;
returns whether a new unlock happened.  Ids are only ever appended, never
removed. -/
def unlock_achievement (s : SaveState) (achievement_id : String) :
    SaveState × Bool :=
  if achievement_id ∈ s.achievements.unlocked then (s, false)
  else
    ({ s with achievements :=
        ⟨pySortStrings (s.achievements.unlocked ++ [achievement_id])⟩ }, true)

/-- The call `self.get_recent_attempts(10)` inside `check_achievements`: the
literal `10` is bound to the `difficulty` parameter (and `limit` keeps its
default 20).  The integer key `10` is not equal to any string key of
`by_difficulty`, so the lookup misses and the empty list is returned (after
the same missing-`by_difficulty` repair as every getter). -/
def get_recent_attempts_int_key (s : SaveState) : SaveState × List Attempt :=
  let s1 := if s.scores.by_difficulty.isNone then
    { s with scores := get_default_scores_structure } else s
  (s1, [])

/-- `check_achievements(latest_time_ms)` — the method as it is actually
defined (one argument; `add_score` never reaches this body, see
`call_check_achievements_2args`).  `get_statistics()` is called with its
default difficulty "normal". -/
def check_achievements (s : SaveState) (latest_time_ms : ℤ) :
    SaveState × List String :=
  let (s1, stats) := get_statistics s "normal"
  let (s2, acc2) :=
    if latest_time_ms ≤ 150 ∧ ¬ is_achievement_unlocked s1 "lightning_fast" then
      ((unlock_achievement s1 "lightning_fast").1, ["Lightning Fast - Under 150ms!"])
    else (s1, [])
  let (s3, acc3) :=
    if latest_time_ms ≤ 200 ∧ ¬ is_achievement_unlocked s2 "quick_draw" then
      ((unlock_achievement s2 "quick_draw").1, acc2 ++ ["Quick Draw - Under 200ms!"])
    else (s2, acc2)
  let (s4, acc4) :=
    if 10 ≤ stats.total_attempts then
      let (s3a, recent_10) := get_recent_attempts_int_key s3
      if recent_10.length = 10 then
        let times := recent_10.map Attempt.time_ms
        let avg : ℚ := (times.sum : ℚ) / (times.length : ℚ)
        if avg ≤ 250 ∧ ¬ is_achievement_unlocked s3a "consistent_performer" then
          ((unlock_achievement s3a "consistent_performer").1,
           acc3 ++ ["Consistent Performer - 10 attempts under 250ms average!"])
        else (s3a, acc3)
      else (s3a, acc3)
    else (s3, acc3)
  let (s5, acc5) :=
    if 100 ≤ stats.total_attempts ∧ ¬ is_achievement_unlocked s4 "century_club" then
      ((unlock_achievement s4 "century_club").1, acc4 ++ ["Century Club - 100 attempts!"])
    else (s4, acc4)
  if 500 ≤ stats.total_attempts ∧ ¬ is_achievement_unlocked s5 "dedicated_player" then
    ((unlock_achievement s5 "dedicated_player").1, acc5 ++ ["Dedicated Player - 500 attempts!"])
  else (s5, acc5)

/-! ## Loading and migration (save_manager.py lines 25-110) -/

/-- An attempt dict in a pre-partition (old format) file; the `difficulty`
key may be absent. -/
structure RawAttempt where
  time_ms : ℤ
  timestamp : String
  date : String
  difficulty : Option String
deriving DecidableEq

/-- An old-format top-level `statistics` dict, read with `.get(key, default)`,
so every key may be absent. -/
structure RawOldStats where
  total_attempts : Option ℕ
  best_time : Option ℤ
  average_time : Option ℚ
deriving DecidableEq

/-- A successfully parsed scores document, before any shape checks: each
recognised top-level key is either present or absent.  `has_best_times`
records presence of the old-format top-level `best_times` key (its value is
never read by `load_scores` or `migrate_old_format`). -/
structure RawScores where
  by_difficulty : Option (List (String × DiffData))
  has_best_times : Bool
  all_attempts : Option (List RawAttempt)
  statistics : Option RawOldStats
  overall_statistics : Option OverallStats
deriving DecidableEq

/-- One loop iteration of the migration: attach the attempt to its difficulty
(defaulting a missing `difficulty` field to "normal", and falling back to the
"normal" bucket when the named difficulty is not a key of the fresh default
structure). -/
def migrate_insert (m : List (String × DiffData)) (a : RawAttempt) :
    List (String × DiffData) :=
  let d0 := a.difficulty.getD "normal"
  let d := if (List.lookup d0 m).isSome then d0 else "normal"
  let dd := (List.lookup d m).getD empty_difficulty_data
  dictInsert m d
    { dd with all_attempts := dd.all_attempts ++ [⟨a.time_ms, a.timestamp, a.date, d0⟩] }

/-- `migrate_old_format(old_data)`: rebuild the default structure from the
flat attempt list, copy the old statistics into "normal", set the overall
attempt count, and recompute `best_times` per difficulty; the result is
re-persisted (write-through, out of scope). -/
def migrate_old_format (old : RawScores) : ScoresData :=
  let m0 := (get_default_scores_structure.by_difficulty).getD []
  let m1 := (old.all_attempts.getD []).foldl migrate_insert m0
  let m2 :=
    match old.statistics with
    | none => m1
    | some st =>
        dictInsert m1 "normal"
          { ((List.lookup "normal" m1).getD empty_difficulty_data) with
            statistics := ⟨st.total_attempts.getD 0, st.best_time, st.average_time⟩ }
  let m3 := m2.map (fun p =>
    if p.2.all_attempts.isEmpty then p
    else (p.1, { p.2 with
      best_times := (pySorted (p.2.all_attempts.map Attempt.time_ms)).take 20 }))
  let overallTotal :=
    match old.statistics with
    | none => 0
    | some st => st.total_attempts.getD 0
  ⟨some m3, some { default_overall with total_attempts := overallTotal }⟩

/-- The "ensure all difficulties exist" loop of `load_scores`: missing
difficulty keys are appended (in the loop's order) with empty structure. -/
def fill_difficulties (m : List (String × DiffData)) :
    List (String × DiffData) :=
  ["easy", "normal", "hard", "beast", "twitchy-god"].foldl
    (fun acc d =>
      if (List.lookup d acc).isSome then acc
      else acc ++ [(d, empty_difficulty_data)])
    m

/-- `load_scores()` as a function of the scores file: `none` when the file
does not exist, `some (.error ())` when reading or JSON-parsing fails, and
`some (.ok raw)` for a successfully parsed document.  Note the fall-through
`return data` for a parsed document that has neither `by_difficulty` nor any
old-format key: such a document is returned unchanged, with no
`by_difficulty` key. -/
def load_scores (file : Option (Except Unit RawScores)) : ScoresData :=
  match file with
  | none => get_default_scores_structure
  | some (.error _) => get_default_scores_structure
  | some (.ok raw) =>
      if raw.by_difficulty.isNone ∧ (raw.has_best_times ∨ raw.all_attempts.isSome) then
        migrate_old_format raw
      else
        match raw.by_difficulty with
        | some m => ⟨some (fill_difficulties m),
                     some (raw.overall_statistics.getD default_overall)⟩
        | none => ⟨none, raw.overall_statistics⟩

/-! ## Gameplay scene state machine (src/scenes/game_scene.py)

Clock reads (`time.time()`), random draws (`random.uniform`, `random.random`)
and the active difficulty (`save_manager.get_setting("difficulty")`) are
passed as explicit arguments at each point the source queries them.  Sounds
and particle bursts are recorded as effects; the ledger-recording call
`save_manager.add_score(time_ms, difficulty)` made by `save_result` is the
`addScoreCall` effect. -/

/-- `GamePhase` (game_scene.py lines 13-19). -/
inductive GamePhase
  | waiting
  | ready
  | green
  | result
  | paused
deriving DecidableEq

/-- `self.reaction_time` is `None`, the string `"Too soon!"`, or the string
`f".._ms_.."` built from the measured integer. -/
inductive ReactionDisplay
  | noneYet
  | tooSoon
  | ms (t : ℤ)
deriving DecidableEq

/-- Side effects the scene requests from its collaborators. -/
inductive Effect
  | playSound (name : String)
  | particleBurst (count : ℕ)
  | addScoreCall (time_ms : ℤ) (difficulty : String)
deriving DecidableEq

/-- The scene's state fields that carry game logic (visual-only fields —
colours, shakes, glows, button bounce, particle system — are out of scope). -/
structure SceneState where
  phase : GamePhase
  start_time : ℚ
  wait_duration : ℚ
  reaction_time : ReactionDisplay
  result_message : String
  performance_rating : String
  performance_level : String
  countdown_time : ℚ
  warning_shown : Bool
  fake_signal_active : Bool
  attempts : ℕ
  best_time : Option ℤ
  session_times : List ℤ
  animation_time : ℚ
deriving DecidableEq

/-- `reset_game()`: reset the per-attempt trial fields.  It does not touch
the session fields `attempts`, `best_time`, `session_times`. -/
def reset_game (s : SceneState) : SceneState :=
  { s with phase := .waiting, start_time := 0, reaction_time := .noneYet,
           wait_duration := 0, result_message := "",
           performance_rating := "", performance_level := "average" }

/-- `enter()`: called on every state change into the playing state
(game_manager.change_state); scenes are constructed once, so `enter` is all
that runs on re-entry. -/
def enter (s : SceneState) : SceneState :=
  { reset_game s with animation_time := 0 }

/-- `start_reaction_test()`.  `u` is the `random.uniform(min_wait, max_wait)`
draw, `r` the `random.random()` draw, `now` the `time.time()` read.  Note the
source sets `countdown_time` from `wait_duration` before the fake-signal
branch multiplies `wait_duration` by 1.5. -/
def start_reaction_test (s : SceneState) (cfg : DifficultyConfig)
    (u r now : ℚ) : SceneState × List Effect :=
  let fake := cfg.fake_signals ∧ r < 3/10
  ({ s with
      wait_duration := if fake then u * (3/2) else u,
      start_time := now,
      phase := .ready,
      countdown_time := u,
      warning_shown := false,
      fake_signal_active := fake },
   [.playSound "start"])

/-- `fallback_start_test()`: fixed 2.0-5.0s range, no difficulty features. -/
def fallback_start_test (s : SceneState) (u now : ℚ) : SceneState :=
  { s with wait_duration := u, start_time := now, phase := .ready }

/-- `handle_early_press()`: input while the light is still red. -/
def handle_early_press (s : SceneState) : SceneState × List Effect :=
  ({ s with reaction_time := .tooSoon,
            result_message := "Wait for GREEN!",
            performance_rating := "💥 OOPS!",
            performance_level := "terrible",
            phase := .result },
   [.playSound "too_soon", .particleBurst 20])

/-- `get_performance_rating_with_level(time_ms)`. -/
def get_performance_rating_with_level (cfg : DifficultyConfig) (time_ms : ℤ) :
    String × String :=
  if time_ms ≤ cfg.excellent_threshold then ("🔥 LIGHTNING FAST!", "excellent")
  else if time_ms ≤ cfg.good_threshold then ("⚡ SUPER QUICK!", "good")
  else if time_ms ≤ cfg.average_threshold then ("👍 NICE JOB!", "average")
  else if time_ms ≤ cfg.poor_threshold then ("😅 NOT BAD!", "poor")
  else if time_ms ≤ cfg.merh_threshold then ("🐌 SLEEPY!", "meh")
  else ("💀 WAKE UP!", "terrible")

/-- `is_session_best(reaction_ms)`. -/
def is_session_best (s : SceneState) (reaction_ms : ℤ) : Bool :=
  match s.best_time with
  | none => true
  | some b => reaction_ms < b

/-- `handle_successful_reaction()`: measure from `start_time` (which the
green transition reset), update session aggregates, rate, and hand the score
to the ledger via `save_result`. -/
def handle_successful_reaction (s : SceneState) (cfg : DifficultyConfig)
    (difficulty : String) (now : ℚ) : SceneState × List Effect :=
  let reaction_ms := pyRound ((now - s.start_time) * 1000)
  let s1 := { s with reaction_time := .ms reaction_ms,
                     attempts := s.attempts + 1,
                     session_times := s.session_times ++ [reaction_ms] }
  let s2 :=
    if is_session_best s reaction_ms then
      { s1 with best_time := some reaction_ms,
                result_message := "NEW SESSION BEST!" }
    else { s1 with result_message := "AWESOME REFLEXES!" }
  let rl := get_performance_rating_with_level cfg reaction_ms
  let s3 := { s2 with performance_rating := rl.1, performance_level := rl.2,
                      phase := .result }
  (s3,
   (if is_session_best s reaction_ms then [Effect.playSound "new_record"] else [])
     ++ [.playSound "success", .particleBurst 30,
         .addScoreCall reaction_ms difficulty])

/-- `reset_for_next_attempt()`. -/
def reset_for_next_attempt (s : SceneState) : SceneState := reset_game s

/-- `handle_reaction_input()`: dispatch on the current phase. -/
def handle_reaction_input (s : SceneState) (cfg : DifficultyConfig)
    (difficulty : String) (u r now : ℚ) : SceneState × List Effect :=
  match s.phase with
  | .paused => (s, [])
  | .waiting => start_reaction_test s cfg u r now
  | .ready => handle_early_press s
  | .green => handle_successful_reaction s cfg difficulty now
  | .result => (reset_for_next_attempt s, [])

/-- `toggle_pause()`: any phase pauses; resuming always lands in WAITING. -/
def toggle_pause (s : SceneState) : SceneState :=
  if s.phase = .paused then { s with phase := .waiting }
  else { s with phase := .paused }

/-- The countdown update in `check_green_transition` (easy mode only). -/
def countdown_update (s : SceneState) (cfg : DifficultyConfig) (elapsed : ℚ) :
    SceneState :=
  if cfg.countdown_enabled then
    { s with countdown_time := max 0 (s.wait_duration - elapsed) }
  else s

/-- The one-shot warning flag in `check_green_transition`. -/
def warning_update (s : SceneState) (cfg : DifficultyConfig) (elapsed : ℚ) :
    SceneState :=
  if 0 < cfg.warning_time ∧ ¬ s.warning_shown ∧
      s.wait_duration - cfg.warning_time ≤ elapsed then
    { s with warning_shown := true }
  else s

/-- The fake-signal window in `check_green_transition`: from 0.6x the wait the
fake cue shows (colour only), and from 0.7x it reverts and the flag clears. -/
def fake_signal_update (s : SceneState) (elapsed : ℚ) : SceneState :=
  if s.fake_signal_active ∧ s.wait_duration * (6/10) ≤ elapsed ∧
      s.wait_duration * (7/10) ≤ elapsed then
    { s with fake_signal_active := false }
  else s

/-- `check_green_transition()`.  The source reads `time.time()` twice: `now`
is the read used for `elapsed`, and `nowg` the fresh read stored into
`start_time` at the instant the transition to GREEN is taken. -/
def check_green_transition (s : SceneState) (cfg : DifficultyConfig)
    (now nowg : ℚ) : SceneState :=
  if s.phase = .ready then
    let elapsed := now - s.start_time
    let s1 := countdown_update s cfg elapsed
    let s2 := warning_update s1 cfg elapsed
    let s3 := fake_signal_update s2 elapsed
    if s3.wait_duration ≤ elapsed then
      { s3 with phase := .green, start_time := nowg }
    else s3
  else s

/-- `update(dt)`: a paused scene returns immediately (timers frozen); an
unpaused one advances animation time and runs the green-transition check
(particle/colour/shake updates are visual and out of scope). -/
def update (s : SceneState) (cfg : DifficultyConfig) (dt now nowg : ℚ) :
    SceneState :=
  if s.phase = .paused then s
  else
    check_green_transition { s with animation_time := s.animation_time + dt }
      cfg now nowg

/-- Replaying a scene's effects against a `SaveManager`: only `addScoreCall`
touches the ledger (sounds and particles are foreign collaborators). -/
def run_ledger_effects (reload : ScoresData) (save : SaveState)
    (now_date now_iso : String) (effs : List Effect) : SaveState :=
  effs.foldl
    (fun st e =>
      match e with
      | .addScoreCall t d => add_score reload st t d now_date now_iso
      | _ => st)
    save

/-! ## Concrete states used by the verification -/

/-- The ledger entry for one difficulty, looked up in a save state. -/
def diff_entry (s : SaveState) (d : String) : Option DiffData :=
  List.lookup d (s.scores.by_difficulty.getD [])

/-- A freshly constructed `SaveManager` with no pre-existing files. -/
def fresh_save : SaveState := ⟨get_default_scores_structure, ⟨[]⟩⟩

/-- An attempt at the fixed session date used by the concrete runs. -/
def mkAttempt (t : ℤ) : Attempt :=
  ⟨t, "2026-10-12T09:00:00", "2026-10-12", "normal"⟩

/-- A scores document whose "normal" ledger is `dd` and whose other
difficulties are empty. -/
def with_normal (dd : DiffData) : ScoresData :=
  ⟨some [("easy", empty_difficulty_data), ("normal", dd),
         ("hard", empty_difficulty_data), ("beast", empty_difficulty_data),
         ("twitchy-god", empty_difficulty_data)],
   some ⟨dd.statistics.total_attempts, 0, "normal"⟩⟩

/-- A "normal" ledger holding exactly 500 attempts: one 0 ms outlier followed
by 499 attempts of 100 ms (the data reached by recording those 500 times). -/
def dd500_avg : DiffData :=
  ⟨0 :: List.replicate 19 (100 : ℤ),
   mkAttempt 0 :: List.replicate 499 (mkAttempt 100),
   ⟨500, some 0, some (49900/500)⟩⟩

def s500_avg : SaveState := ⟨with_normal dd500_avg, ⟨[]⟩⟩

/-- A "normal" ledger holding exactly 500 attempts: one 50 ms attempt followed
by 499 attempts of 100 ms. -/
def dd500_best : DiffData :=
  ⟨50 :: List.replicate 19 (100 : ℤ),
   mkAttempt 50 :: List.replicate 499 (mkAttempt 100),
   ⟨500, some 50, some (49950/500)⟩⟩

def s500_best : SaveState := ⟨with_normal dd500_best, ⟨[]⟩⟩

/-- Recording the times 0, 1, ..., n-1 in order on the "normal" difficulty,
starting from a fresh save. -/
def record_fold (n : ℕ) : SaveState :=
  (List.range n).foldl
    (fun st (i : ℕ) =>
      add_score get_default_scores_structure st (i : ℤ) "normal"
        "2026-10-12" "2026-10-12T09:00:00")
    fresh_save

/-- `record(120, "normal")` then `record(90, "normal")` from a fresh save. -/
def record_120_90 : SaveState :=
  add_score get_default_scores_structure
    (add_score get_default_scores_structure fresh_save 120 "normal"
      "2026-10-12" "2026-10-12T09:00:00")
    90 "normal" "2026-10-12" "2026-10-12T09:00:00"

/-- A parsed scores file that is valid JSON but has none of the recognised
keys (for instance, a file holding just an empty object). -/
def raw_empty : RawScores := ⟨none, false, none, none, none⟩

/-- The save manager state after loading `raw_empty`: the fall-through branch
of `load_scores` returns the document unchanged, with no `by_difficulty`
key. -/
def bad_save : SaveState := ⟨load_scores (some (.ok raw_empty)), ⟨[]⟩⟩

/-- A mid-trial scene state: armed (READY), cue scheduled 3s after the arming
instant 10s. -/
def sample_ready_state : SceneState :=
  ⟨.ready, 10, 3, .noneYet, "", "", "average", 3, false, false, 0, none, [], 0⟩

/-- A scene state at the end of a session with three scored attempts. -/
def c8_state : SceneState :=
  ⟨.result, 20, 3, .ms 250, "NEW SESSION BEST!", "🔥 LIGHTNING FAST!",
   "excellent", 3, false, false, 3, some 250, [310, 300, 250], 42⟩

/-! ## Helper lemmas -/

theorem pyRound_nonneg (x : ℚ) (hx : 0 ≤ x) : 0 ≤ pyRound x := by
  have hf : (0 : ℤ) ≤ ⌊x⌋ := Int.floor_nonneg.mpr hx
  unfold pyRound
  dsimp only
  split_ifs <;> omega

theorem pyRound_dist (x : ℚ) : |((pyRound x : ℤ) : ℚ) - x| ≤ 1/2 := by
  have h0 : ((⌊x⌋ : ℤ) : ℚ) ≤ x := Int.floor_le x
  have h1 : x < (⌊x⌋ : ℤ) + 1 := Int.lt_floor_add_one x
  unfold pyRound
  dsimp only
  rw [abs_le]
  split_ifs <;> constructor <;> push_cast <;> linarith

@[simp] theorem countdown_update_phase (s : SceneState) (cfg : DifficultyConfig)
    (e : ℚ) : (countdown_update s cfg e).phase = s.phase := by
  unfold countdown_update; split <;> rfl

@[simp] theorem countdown_update_start (s : SceneState) (cfg : DifficultyConfig)
    (e : ℚ) : (countdown_update s cfg e).start_time = s.start_time := by
  unfold countdown_update; split <;> rfl

@[simp] theorem countdown_update_wait (s : SceneState) (cfg : DifficultyConfig)
    (e : ℚ) : (countdown_update s cfg e).wait_duration = s.wait_duration := by
  unfold countdown_update; split <;> rfl

@[simp] theorem warning_update_phase (s : SceneState) (cfg : DifficultyConfig)
    (e : ℚ) : (warning_update s cfg e).phase = s.phase := by
  unfold warning_update; split <;> rfl

@[simp] theorem warning_update_start (s : SceneState) (cfg : DifficultyConfig)
    (e : ℚ) : (warning_update s cfg e).start_time = s.start_time := by
  unfold warning_update; split <;> rfl

@[simp] theorem warning_update_wait (s : SceneState) (cfg : DifficultyConfig)
    (e : ℚ) : (warning_update s cfg e).wait_duration = s.wait_duration := by
  unfold warning_update; split <;> rfl

@[simp] theorem fake_signal_update_phase (s : SceneState) (e : ℚ) :
    (fake_signal_update s e).phase = s.phase := by
  unfold fake_signal_update; split <;> rfl

@[simp] theorem fake_signal_update_start (s : SceneState) (e : ℚ) :
    (fake_signal_update s e).start_time = s.start_time := by
  unfold fake_signal_update; split <;> rfl

@[simp] theorem fake_signal_update_wait (s : SceneState) (e : ℚ) :
    (fake_signal_update s e).wait_duration = s.wait_duration := by
  unfold fake_signal_update; split <;> rfl

/-- On an armed scene whose wait has elapsed, `check_green_transition` fires:
phase becomes GREEN and the reaction clock is reset to the fresh `time.time()`
read `nowg`. -/
theorem check_green_fires (s : SceneState) (cfg : DifficultyConfig)
    (now nowg : ℚ) (h : s.phase = .ready)
    (he : s.wait_duration ≤ now - s.start_time) :
    (check_green_transition s cfg now nowg).phase = .green ∧
    (check_green_transition s cfg now nowg).start_time = nowg := by
  unfold check_green_transition
  rw [if_pos h]
  dsimp only
  have hw : (fake_signal_update
      (warning_update (countdown_update s cfg (now - s.start_time)) cfg
        (now - s.start_time)) (now - s.start_time)).wait_duration
      = s.wait_duration := by simp
  rw [hw, if_pos he]
  exact ⟨rfl, rfl⟩

theorem handle_successful_reaction_state (s : SceneState)
    (cfg : DifficultyConfig) (difficulty : String) (now : ℚ) :
    (handle_successful_reaction s cfg difficulty now).1.reaction_time
      = .ms (pyRound ((now - s.start_time) * 1000)) ∧
    (handle_successful_reaction s cfg difficulty now).1.phase = .result ∧
    (handle_successful_reaction s cfg difficulty now).1.attempts
      = s.attempts + 1 ∧
    (handle_successful_reaction s cfg difficulty now).1.session_times
      = s.session_times ++ [pyRound ((now - s.start_time) * 1000)] := by
  unfold handle_successful_reaction
  dsimp only
  split <;> exact ⟨rfl, rfl, rfl, rfl⟩

theorem handle_successful_reaction_records (s : SceneState)
    (cfg : DifficultyConfig) (difficulty : String) (now : ℚ) :
    Effect.addScoreCall (pyRound ((now - s.start_time) * 1000)) difficulty
      ∈ (handle_successful_reaction s cfg difficulty now).2 := by
  unfold handle_successful_reaction
  dsimp only
  split <;> simp

/-! ## C7 — wait-duration range -/

/-- C7: when the machine arms, the drawn `wait_duration` lies in
[min_wait, max_wait] of the active profile if the fake-cue flag did not fire,
and in [1.5 min_wait, 1.5 max_wait] if it did; the flag can only fire for a
profile with fake signals enabled. -/
theorem C7_wait_duration_range (s : SceneState) (cfg : DifficultyConfig)
    (u r now : ℚ) (hu1 : cfg.min_wait ≤ u) (hu2 : u ≤ cfg.max_wait) :
    ((start_reaction_test s cfg u r now).1.fake_signal_active = false →
      cfg.min_wait ≤ (start_reaction_test s cfg u r now).1.wait_duration ∧
      (start_reaction_test s cfg u r now).1.wait_duration ≤ cfg.max_wait) ∧
    ((start_reaction_test s cfg u r now).1.fake_signal_active = true →
      cfg.fake_signals = true ∧
      (3/2) * cfg.min_wait ≤ (start_reaction_test s cfg u r now).1.wait_duration ∧
      (start_reaction_test s cfg u r now).1.wait_duration ≤ (3/2) * cfg.max_wait) := by
  unfold start_reaction_test
  dsimp only
  constructor
  · intro hf
    rw [decide_eq_false_iff_not] at hf
    rw [if_neg hf]
    exact ⟨hu1, hu2⟩
  · intro hf
    rw [decide_eq_true_eq] at hf
    rw [if_pos hf]
    refine ⟨hf.1, ?_, ?_⟩ <;> nlinarith

/-- Witness for C7: a twitchy-god draw of u = 1s with the fake-cue roll
r = 0.1 firing. -/
theorem C7_witness :
    twitchy_god_config.min_wait ≤ 1 ∧ (1 : ℚ) ≤ twitchy_god_config.max_wait ∧
    ((start_reaction_test sample_ready_state twitchy_god_config 1 (1/10) 20).1.fake_signal_active = true →
      twitchy_god_config.fake_signals = true ∧
      (3/2) * twitchy_god_config.min_wait ≤
        (start_reaction_test sample_ready_state twitchy_god_config 1 (1/10) 20).1.wait_duration ∧
      (start_reaction_test sample_ready_state twitchy_god_config 1 (1/10) 20).1.wait_duration ≤
        (3/2) * twitchy_god_config.max_wait) :=
  ⟨by norm_num [twitchy_god_config], by norm_num [twitchy_god_config],
   (C7_wait_duration_range sample_ready_state twitchy_god_config 1 (1/10) 20
      (by norm_num [twitchy_god_config]) (by norm_num [twitchy_god_config])).2⟩

/-! ## C8 — scene entry and the session aggregator -/

/-- C8 (amended): `enter` resets the per-trial fields (phase, timers, result
display) and the animation clock, but the session aggregator — `attempts`,
`best_time`, `session_times` — is preserved across re-entries; those three
fields are zeroed only when the scene object is constructed. -/
theorem C8_enter_resets_trial_not_session (s : SceneState) :
    (enter s).phase = .waiting ∧ (enter s).start_time = 0 ∧
    (enter s).reaction_time = .noneYet ∧ (enter s).wait_duration = 0 ∧
    (enter s).result_message = "" ∧ (enter s).animation_time = 0 ∧
    (enter s).attempts = s.attempts ∧
    (enter s).best_time = s.best_time ∧
    (enter s).session_times = s.session_times :=
  ⟨rfl, rfl, rfl, rfl, rfl, rfl, rfl, rfl, rfl⟩

/-- Counterexample to C8 as stated: re-entering the scene after a session
with three recorded attempts does not reset the session aggregator. -/
theorem C8_counterexample :
    (enter c8_state).attempts ≠ 0 ∧
    (enter c8_state).best_time ≠ none ∧
    (enter c8_state).session_times ≠ [] := by
  refine ⟨?_, ?_, ?_⟩ <;> simp [enter, reset_game, c8_state]

/-! ## C10 — pause and resume -/

/-- C10 (amended): pausing freezes the scene (`update` is the identity on a
paused scene) and changes nothing but the phase, but resuming always lands in
WAITING — so a trial that was Armed or Cued when the pause began is abandoned
without producing a result, in addition to the abandonment caused by scene
re-entry. -/
theorem C10_pause_resume (s : SceneState) (cfg : DifficultyConfig)
    (dt now nowg : ℚ) (h : s.phase ≠ .paused) :
    toggle_pause s = { s with phase := .paused } ∧
    update (toggle_pause s) cfg dt now nowg = toggle_pause s ∧
    toggle_pause (toggle_pause s) = { s with phase := .waiting } := by
  have h1 : toggle_pause s = { s with phase := .paused } := by
    unfold toggle_pause
    rw [if_neg h]
  refine ⟨h1, ?_, ?_⟩
  · rw [h1]
    unfold update
    rw [if_pos rfl]
  · rw [h1]
    unfold toggle_pause
    rw [if_pos rfl]

/-- Witness for C10 at a concrete armed (READY) scene state. -/
theorem C10_witness :
    sample_ready_state.phase ≠ .paused ∧
    toggle_pause (toggle_pause sample_ready_state)
      = { sample_ready_state with phase := .waiting } :=
  ⟨by decide,
   (C10_pause_resume sample_ready_state normal_config 1 11 11 (by decide)).2.2⟩

/-- Counterexample to C10 as stated: a pause taken mid-trial (phase READY)
followed by a resume lands in WAITING with no result recorded — the in-flight
trial is silently abandoned even though the scene was never re-entered. -/
theorem C10_counterexample :
    sample_ready_state.phase = .ready ∧
    (toggle_pause (toggle_pause sample_ready_state)).phase = .waiting ∧
    (toggle_pause (toggle_pause sample_ready_state)).reaction_time
      = .noneYet := by
  refine ⟨rfl, ?_, ?_⟩ <;> simp [toggle_pause, sample_ready_state]

/-! ## C3 — early press -/

/-- C3: trial input while Armed (READY) is dispatched to `handle_early_press`:
the scene moves to the result phase, the displayed reaction time is the
non-numeric "Too soon!" marker, no `add_score` call is emitted, and replaying
the emitted effects leaves any ledger state unchanged. -/
theorem C3_early_press_not_recorded (s : SceneState) (cfg : DifficultyConfig)
    (difficulty : String) (u r now : ℚ) (ledger : SaveState)
    (reload : ScoresData) (d0 i0 : String) (h : s.phase = .ready) :
    (handle_reaction_input s cfg difficulty u r now).1.phase = .result ∧
    (handle_reaction_input s cfg difficulty u r now).1.reaction_time = .tooSoon ∧
    (∀ t d, Effect.addScoreCall t d ∉ (handle_reaction_input s cfg difficulty u r now).2) ∧
    run_ledger_effects reload ledger d0 i0
      (handle_reaction_input s cfg difficulty u r now).2 = ledger := by
  have hd : handle_reaction_input s cfg difficulty u r now = handle_early_press s := by
    unfold handle_reaction_input
    rw [h]
  rw [hd]
  unfold handle_early_press run_ledger_effects
  refine ⟨rfl, rfl, ?_, rfl⟩
  intro t d
  simp

/-- Witness for C3 at a concrete armed scene state and a fresh ledger. -/
theorem C3_witness :
    sample_ready_state.phase = .ready ∧
    (handle_reaction_input sample_ready_state normal_config "normal" 3 (1/2) 11).1.reaction_time = .tooSoon ∧
    run_ledger_effects get_default_scores_structure fresh_save "2026-10-12"
      "2026-10-12T09:00:00"
      (handle_reaction_input sample_ready_state normal_config "normal" 3 (1/2) 11).2 = fresh_save := by
  have h := C3_early_press_not_recorded sample_ready_state normal_config
    "normal" 3 (1/2) 11 fresh_save get_default_scores_structure
    "2026-10-12" "2026-10-12T09:00:00" rfl
  exact ⟨rfl, h.2.1, h.2.2.2⟩

/-! ## C2 — reaction measurement -/

/-- C2: once the wait has elapsed, the Armed-to-Cued transition fires and
resets the internal clock to the fresh read `nowg`; the subsequent scoring
input at `now2` reports exactly `round((now2 - nowg) * 1000)` (Python's
round-half-to-even, which is within 1/2 of the true millisecond delta), that
value is what is handed to the ledger, and it is non-negative whenever the
clock did not go backward between the cue and the input. -/
theorem C2_reaction_ms (s : SceneState) (cfg : DifficultyConfig)
    (difficulty : String) (u r now1 nowg now2 : ℚ)
    (h : s.phase = .ready)
    (he : s.wait_duration ≤ now1 - s.start_time) :
    (check_green_transition s cfg now1 nowg).phase = .green ∧
    (check_green_transition s cfg now1 nowg).start_time = nowg ∧
    (handle_reaction_input (check_green_transition s cfg now1 nowg) cfg
        difficulty u r now2).1.reaction_time
      = .ms (pyRound ((now2 - nowg) * 1000)) ∧
    Effect.addScoreCall (pyRound ((now2 - nowg) * 1000)) difficulty
      ∈ (handle_reaction_input (check_green_transition s cfg now1 nowg) cfg
          difficulty u r now2).2 ∧
    |((pyRound ((now2 - nowg) * 1000) : ℤ) : ℚ) - (now2 - nowg) * 1000| ≤ 1/2 ∧
    (nowg ≤ now2 → 0 ≤ pyRound ((now2 - nowg) * 1000)) := by
  obtain ⟨hp, hst⟩ := check_green_fires s cfg now1 nowg h he
  have hd : handle_reaction_input (check_green_transition s cfg now1 nowg) cfg
      difficulty u r now2
      = handle_successful_reaction (check_green_transition s cfg now1 nowg) cfg
          difficulty now2 := by
    unfold handle_reaction_input
    rw [hp]
  refine ⟨hp, hst, ?_, ?_, pyRound_dist _, ?_⟩
  · rw [hd, (handle_successful_reaction_state _ _ _ _).1, hst]
  · rw [hd]
    have := handle_successful_reaction_records
      (check_green_transition s cfg now1 nowg) cfg difficulty now2
    rwa [hst] at this
  · intro hle
    apply pyRound_nonneg
    have : (0:ℚ) ≤ now2 - nowg := by linarith
    nlinarith

/-- Witness for C2: arming at 10s with a 3s wait, cue at 14s, scoring input
237 ms after the cue. -/
theorem C2_witness :
    sample_ready_state.phase = .ready ∧
    sample_ready_state.wait_duration ≤ 14 - sample_ready_state.start_time ∧
    (check_green_transition sample_ready_state normal_config 14 14).phase = .green ∧
    (handle_reaction_input (check_green_transition sample_ready_state normal_config 14 14)
        normal_config "normal" 3 (1/2) (14 + 237/1000)).1.reaction_time
      = .ms (pyRound ((14 + 237/1000 - 14) * 1000)) ∧
    (0 : ℤ) ≤ pyRound ((14 + 237/1000 - 14) * 1000) := by
  have h := C2_reaction_ms sample_ready_state normal_config "normal" 3 (1/2)
    14 14 (14 + 237/1000) rfl (by norm_num [sample_ready_state])
  exact ⟨rfl, by norm_num [sample_ready_state], h.1, h.2.2.1,
         h.2.2.2.2.2 (by norm_num)⟩

/-! ## Ledger lemmas -/

theorem lookup_map_replace (m : List (String × DiffData)) (d : String)
    (v : DiffData) :
    List.lookup d (m.map (fun p => if p.1 = d then (d, v) else p))
      = (List.lookup d m).map (fun _ => v) := by
  induction m with
  | nil => rfl
  | cons p rest ih =>
      obtain ⟨k, w⟩ := p
      by_cases hp : k = d
      · subst hp
        simp [List.lookup_cons]
      · have hb : (d == k) = false := by
          simp [Ne.symm hp]
        simp only [List.map_cons, if_neg (by simpa using hp), List.lookup_cons,
          hb, ih]

theorem lookup_append_last (m : List (String × DiffData)) (d : String)
    (v : DiffData) (h : List.lookup d m = none) :
    List.lookup d (m ++ [(d, v)]) = some v := by
  induction m with
  | nil => simp [List.lookup_cons]
  | cons p rest ih =>
      obtain ⟨k, w⟩ := p
      rw [List.lookup_cons] at h
      rw [List.cons_append, List.lookup_cons]
      cases hb : (d == k) with
      | true => rw [hb] at h; exact absurd h (by simp)
      | false => rw [hb] at h; exact ih h

theorem lookup_mem {m : List (String × DiffData)} {d : String} {dd : DiffData}
    (h : List.lookup d m = some dd) : ∃ k, (k, dd) ∈ m := by
  induction m with
  | nil => simp [List.lookup] at h
  | cons p rest ih =>
      obtain ⟨k, w⟩ := p
      rw [List.lookup_cons] at h
      cases hb : (d == k) with
      | true =>
          rw [hb] at h
          refine ⟨k, ?_⟩
          have : w = dd := Option.some_inj.mp h
          simp [this]
      | false =>
          rw [hb] at h
          obtain ⟨k', hk'⟩ := ih h
          refine ⟨k', ?_⟩
          simp [hk']

theorem lookup_dictInsert_self (m : List (String × DiffData)) (d : String)
    (v : DiffData) : List.lookup d (dictInsert m d v) = some v := by
  unfold dictInsert
  split
  · next h =>
      rw [lookup_map_replace]
      obtain ⟨w, hw⟩ := Option.isSome_iff_exists.mp h
      rw [hw]
      rfl
  · next h =>
      exact lookup_append_last m d v (Option.not_isSome_iff_eq_none.mp h)

theorem lookup_ensureKey (m : List (String × DiffData)) (d : String) :
    List.lookup d (ensureKey m d)
      = some ((List.lookup d m).getD empty_difficulty_data) := by
  by_cases hs : (List.lookup d m).isNone = true
  · have hx : List.lookup d m = none := Option.isNone_iff_eq_none.mp hs
    rw [ensureKey, if_pos hs, lookup_append_last m d _ hx, hx]
    rfl
  · cases hx : List.lookup d m with
    | none => rw [hx] at hs; simp at hs
    | some dd =>
        rw [ensureKey, if_neg hs, hx]
        rfl

theorem ensureKey_of_mem {m : List (String × DiffData)} {d : String}
    {dd : DiffData} (h : List.lookup d m = some dd) : ensureKey m d = m := by
  unfold ensureKey
  rw [h]
  rfl

/-- `add_score` never touches the achievements document: the final
`check_achievements` call raises before the evaluator body runs. -/
theorem add_score_achievements (reload : ScoresData) (s : SaveState) (t : ℤ)
    (d dt ts : String) :
    (add_score reload s t d dt ts).achievements = s.achievements := by
  unfold add_score call_check_achievements_2args
  dsimp only
  split
  all_goals rfl

theorem add_score_by_difficulty (reload : ScoresData) (s : SaveState) (t : ℤ)
    (d dt ts : String) (m : List (String × DiffData))
    (h : s.scores.by_difficulty = some m) :
    (add_score reload s t d dt ts).scores.by_difficulty
      = some (dictInsert (ensureKey m d) d
          (add_score_dd ((List.lookup d (ensureKey m d)).getD empty_difficulty_data)
            t d dt ts)) := by
  unfold add_score call_check_achievements_2args
  simp only [h, Option.isNone_some, Bool.false_eq_true, if_false]

/-- The entry of the recorded difficulty after `add_score`. -/
theorem add_score_entry (reload : ScoresData) (s : SaveState) (t : ℤ)
    (d dt ts : String) (m : List (String × DiffData))
    (h : s.scores.by_difficulty = some m) :
    diff_entry (add_score reload s t d dt ts) d
      = some (add_score_dd ((List.lookup d m).getD empty_difficulty_data)
          t d dt ts) := by
  unfold diff_entry
  rw [add_score_by_difficulty reload s t d dt ts m h]
  dsimp only [Option.getD_some]
  rw [lookup_dictInsert_self, lookup_ensureKey]
  rfl

theorem add_score_dd_total (dd : DiffData) (t : ℤ) (d dt ts : String) :
    (add_score_dd dd t d dt ts).statistics.total_attempts
      = dd.statistics.total_attempts + 1 := rfl

theorem add_score_dd_best_times (dd : DiffData) (t : ℤ) (d dt ts : String) :
    (add_score_dd dd t d dt ts).best_times
      = (pySorted ((dd.all_attempts ++ [(⟨t, ts, dt, d⟩ : Attempt)]).map Attempt.time_ms)).take 20 := rfl

theorem add_score_dd_attempts (dd : DiffData) (t : ℤ) (d dt ts : String) :
    (add_score_dd dd t d dt ts).all_attempts
      = (dd.all_attempts ++ [(⟨t, ts, dt, d⟩ : Attempt)]).drop
          ((dd.all_attempts.length + 1) - 500) := by
  have hlen : (dd.all_attempts ++ [(⟨t, ts, dt, d⟩ : Attempt)]).length
      = dd.all_attempts.length + 1 := by simp
  unfold add_score_dd
  dsimp only
  rw [hlen]
  split
  · next h => rfl
  · next h =>
      have hz : dd.all_attempts.length + 1 - 500 = 0 := by omega
      rw [hz, List.drop_zero]

theorem add_score_dd_avg (dd : DiffData) (t : ℤ) (d dt ts : String) :
    (add_score_dd dd t d dt ts).statistics.average_time
      = some ((((dd.all_attempts.map Attempt.time_ms).sum : ℚ) + (t : ℚ))
          / ((dd.all_attempts.length : ℚ) + 1)) := by
  unfold add_score_dd
  dsimp only
  congr 1
  rw [List.map_append]
  simp only [List.sum_append, List.length_append, List.length_map,
    List.map_cons, List.map_nil, List.sum_cons, List.sum_nil, List.length_cons,
    List.length_nil]
  push_cast
  ring

/-- Ascending runs of a constant are sorted. -/
theorem sorted_le_replicate (n : ℕ) (x : ℤ) :
    List.Sorted (· ≤ ·) (List.replicate n x) := by
  induction n with
  | zero => simp
  | succ k ih =>
      rw [List.replicate_succ]
      exact List.sorted_cons.mpr
        ⟨fun b hb => le_of_eq (List.eq_of_mem_replicate hb).symm, ih⟩

/-- `add_score` on a state whose ledger holds `dd` for difficulty `d` stores
exactly `add_score_dd dd ...` for `d`. -/
theorem add_score_entry_of_lookup (reload : ScoresData) (s : SaveState)
    (t : ℤ) (d dt ts : String) (m : List (String × DiffData)) (dd : DiffData)
    (h1 : s.scores.by_difficulty = some m)
    (h2 : List.lookup d m = some dd) :
    diff_entry (add_score reload s t d dt ts) d
      = some (add_score_dd dd t d dt ts) := by
  have he := add_score_entry reload s t d dt ts m h1
  rw [h2] at he
  simpa using he

/-! ## C4 — average recomputation -/

/-- C4 (amended): after every record call the stored `average_time` is the
arithmetic mean over the *appended, pre-eviction* attempt list (retained
attempts plus the new one, including the attempt about to be evicted); this
equals the mean over the post-eviction `all_attempts` exactly when no
eviction happens in that call (at most 500 attempts after the append).
Querying statistics never changes the state after a record. -/
theorem C4_average_recompute (reload : ScoresData) (s : SaveState) (t : ℤ)
    (d dt ts : String) (m : List (String × DiffData)) (dd : DiffData)
    (h1 : s.scores.by_difficulty = some m)
    (h2 : List.lookup d m = some dd) :
    ∃ dd', diff_entry (add_score reload s t d dt ts) d = some dd' ∧
      dd'.statistics.average_time
        = some ((((dd.all_attempts.map Attempt.time_ms).sum : ℚ) + (t : ℚ))
            / ((dd.all_attempts.length : ℚ) + 1)) ∧
      (dd.all_attempts.length + 1 ≤ 500 →
        dd'.statistics.average_time
          = some (((dd'.all_attempts.map Attempt.time_ms).sum : ℚ)
              / (dd'.all_attempts.length : ℚ))) ∧
      (∀ q, (get_statistics (add_score reload s t d dt ts) q).1
        = add_score reload s t d dt ts) := by
  refine ⟨add_score_dd dd t d dt ts,
    add_score_entry_of_lookup reload s t d dt ts m dd h1 h2,
    add_score_dd_avg dd t d dt ts, ?_, ?_⟩
  · intro hlen
    rw [add_score_dd_avg, add_score_dd_attempts]
    have hz : dd.all_attempts.length + 1 - 500 = 0 := by omega
    rw [hz, List.drop_zero]
    congr 1
    rw [List.map_append, List.sum_append, List.length_append]
    simp only [List.map_cons, List.map_nil, List.sum_cons, List.sum_nil,
      List.length_cons, List.length_nil]
    push_cast
    ring
  · intro q
    have hb := add_score_by_difficulty reload s t d dt ts m h1
    unfold get_statistics
    simp only [hb, Option.isNone_some, Bool.false_eq_true, if_false]
    split
    all_goals rfl

/-- Witness for C4: the first record on a fresh save yields average 100. -/
theorem C4_witness :
    ∃ dd', diff_entry (add_score get_default_scores_structure fresh_save 100
        "normal" "2026-10-12" "2026-10-12T09:00:00") "normal" = some dd' ∧
      dd'.statistics.average_time = some (100 : ℚ) := by
  obtain ⟨dd', h1, h2, _, _⟩ := C4_average_recompute get_default_scores_structure
    fresh_save 100 "normal" "2026-10-12" "2026-10-12T09:00:00" _ _ rfl rfl
  refine ⟨dd', h1, ?_⟩
  rw [h2]
  norm_num [empty_difficulty_data]

/-- Counterexample to C4 as stated: recording a 501st attempt computes the
average over all 501 appended attempts (50000/501 ≈ 99.8 ms), which differs
from the mean of the 500 attempts actually retained after eviction
(100 ms). -/
theorem C4_counterexample :
    ∃ dd', diff_entry (add_score get_default_scores_structure s500_avg 100
        "normal" "2026-10-12" "2026-10-12T09:00:00") "normal" = some dd' ∧
      dd'.statistics.average_time = some (50000/501 : ℚ) ∧
      (((dd'.all_attempts.map Attempt.time_ms).sum : ℚ)
          / (dd'.all_attempts.length : ℚ)) = 100 ∧
      (50000/501 : ℚ) ≠ 100 := by
  have he := add_score_entry_of_lookup get_default_scores_structure s500_avg
    100 "normal" "2026-10-12" "2026-10-12T09:00:00" _ dd500_avg rfl rfl
  refine ⟨_, he, ?_, ?_, by norm_num⟩
  · rw [add_score_dd_avg]
    congr 1
    simp only [dd500_avg, mkAttempt, List.map_cons, List.map_replicate,
      List.sum_cons, List.sum_replicate, List.length_cons,
      List.length_replicate, smul_eq_mul]
    push_cast
    norm_num
  · have hlen5 : dd500_avg.all_attempts.length = 500 := by
      simp [dd500_avg]
    have hatt : (add_score_dd dd500_avg 100 "normal" "2026-10-12"
        "2026-10-12T09:00:00").all_attempts
        = List.replicate 500 (mkAttempt 100) := by
      rw [add_score_dd_attempts, hlen5]
      norm_num
      simp only [dd500_avg, mkAttempt, List.cons_append, List.drop_succ_cons,
        List.drop_zero]
      exact (List.replicate_succ' 499 (mkAttempt 100)).symm
    rw [hatt]
    simp only [List.map_replicate, List.sum_replicate, List.length_replicate,
      smul_eq_mul, mkAttempt]
    norm_num

/-! ## C5 — best-times ranking -/

/-- C5 (amended): after every record call `best_times` is the ascending
sorted prefix of length ≤ 20 of the *appended, pre-eviction* attempt times
(the retained window plus the new attempt) — not of all times ever recorded,
since times evicted from `all_attempts` in earlier calls no longer
participate; and the concrete two-record instance returns [90, 120]. -/
theorem C5_best_times_recompute :
    (∀ (reload : ScoresData) (s : SaveState) (t : ℤ) (d dt ts : String)
        (m : List (String × DiffData)) (dd : DiffData),
      s.scores.by_difficulty = some m → List.lookup d m = some dd →
      ∃ dd', diff_entry (add_score reload s t d dt ts) d = some dd' ∧
        dd'.best_times
          = (pySorted ((dd.all_attempts ++ [(⟨t, ts, dt, d⟩ : Attempt)]).map
              Attempt.time_ms)).take 20) ∧
    (get_best_times record_120_90 "normal" 20).2 = [90, 120] := by
  constructor
  · intro reload s t d dt ts m dd h1 h2
    exact ⟨_, add_score_entry_of_lookup reload s t d dt ts m dd h1 h2,
      add_score_dd_best_times dd t d dt ts⟩
  · rfl

/-- Witness for C5: the first record on a fresh save yields `best_times`
[100]. -/
theorem C5_witness :
    ∃ dd', diff_entry (add_score get_default_scores_structure fresh_save 100
        "normal" "2026-10-12" "2026-10-12T09:00:00") "normal" = some dd' ∧
      dd'.best_times = [100] := by
  obtain ⟨dd', h1, h2⟩ := C5_best_times_recompute.1 get_default_scores_structure
    fresh_save 100 "normal" "2026-10-12" "2026-10-12T09:00:00" _ _ rfl rfl
  exact ⟨dd', h1, by rw [h2]; rfl⟩

/-- Counterexample to C5 as stated: with 500 retained attempts (a 50 ms
attempt about to be evicted, then 499 of 100 ms), recording one more 100 ms
attempt stores best_times = 50 :: 100^19, while the sorted top-20 of the
attempts retained after eviction is 100^20 — the "equivalently" clause of the
claim fails at this input. -/
theorem C5_counterexample :
    ∃ dd', diff_entry (add_score get_default_scores_structure s500_best 100
        "normal" "2026-10-12" "2026-10-12T09:00:00") "normal" = some dd' ∧
      dd'.best_times = 50 :: List.replicate 19 (100 : ℤ) ∧
      (pySorted (dd'.all_attempts.map Attempt.time_ms)).take 20
        = List.replicate 20 (100 : ℤ) ∧
      (50 :: List.replicate 19 (100 : ℤ)) ≠ List.replicate 20 (100 : ℤ) := by
  have he := add_score_entry_of_lookup get_default_scores_structure s500_best
    100 "normal" "2026-10-12" "2026-10-12T09:00:00" _ dd500_best rfl rfl
  refine ⟨_, he, ?_, ?_, by decide⟩
  · rw [add_score_dd_best_times]
    have htimes : ((dd500_best.all_attempts ++
        [(⟨100, "2026-10-12T09:00:00", "2026-10-12", "normal"⟩ : Attempt)]).map
          Attempt.time_ms)
        = 50 :: List.replicate 500 (100 : ℤ) := by
      simp only [dd500_best, mkAttempt, List.cons_append, List.map_cons,
        List.map_append, List.map_replicate, List.map_nil]
      rw [← List.replicate_succ']
    rw [htimes]
    have hsorted : List.Sorted (· ≤ ·) (50 :: List.replicate 500 (100 : ℤ)) :=
      List.sorted_cons.mpr
        ⟨fun b hb => by rw [List.eq_of_mem_replicate hb]; norm_num,
         sorted_le_replicate 500 100⟩
    rw [pySorted, hsorted.insertionSort_eq]
    rw [List.take_succ_cons]
    simp [List.take_replicate]
  · have hlen5 : dd500_best.all_attempts.length = 500 := by
      simp [dd500_best]
    have hatt : (add_score_dd dd500_best 100 "normal" "2026-10-12"
        "2026-10-12T09:00:00").all_attempts
        = List.replicate 500 (mkAttempt 100) := by
      rw [add_score_dd_attempts, hlen5]
      norm_num
      simp only [dd500_best, mkAttempt, List.cons_append, List.drop_succ_cons,
        List.drop_zero]
      exact (List.replicate_succ' 499 (mkAttempt 100)).symm
    rw [hatt, List.map_replicate]
    have : (mkAttempt 100).time_ms = (100 : ℤ) := rfl
    rw [this, pySorted, (sorted_le_replicate 500 (100 : ℤ)).insertionSort_eq]
    simp [List.take_replicate]

/-! ## C6 — bounded FIFO window -/

theorem record_fold_succ (n : ℕ) :
    record_fold (n + 1)
      = add_score get_default_scores_structure (record_fold n) (n : ℤ)
          "normal" "2026-10-12" "2026-10-12T09:00:00" := by
  unfold record_fold
  rw [List.range_succ, List.foldl_append]
  rfl

/-- Recording times 0..n-1 (n ≤ 500) from a fresh save retains all of them,
in order. -/
theorem record_fold_attempts : ∀ n, n ≤ 500 →
    ∃ m dd, (record_fold n).scores.by_difficulty = some m ∧
      List.lookup "normal" m = some dd ∧
      dd.all_attempts = (List.range n).map (fun (i : ℕ) => mkAttempt (i : ℤ)) := by
  intro n
  induction n with
  | zero =>
      intro _
      exact ⟨_, _, rfl, rfl, rfl⟩
  | succ k ih =>
      intro hk
      obtain ⟨m, dd, h1, h2, h3⟩ := ih (by omega)
      rw [record_fold_succ]
      refine ⟨_, _, add_score_by_difficulty _ _ _ _ _ _ m h1,
        lookup_dictInsert_self _ _ _, ?_⟩
      rw [ensureKey_of_mem h2, h2]
      simp only [Option.getD_some]
      rw [add_score_dd_attempts, h3]
      have hlenk : ((List.range k).map (fun (i : ℕ) => mkAttempt (i : ℤ))).length = k := by
        simp
      rw [hlenk]
      have hz : k + 1 - 500 = 0 := by omega
      rw [hz, List.drop_zero, List.range_succ, List.map_append]
      rfl

/-- C6: the per-difficulty window after a record call is the suffix of at
most 500 of the appended attempt list (so the oldest attempt is evicted
first and the length never exceeds 500); and concretely, after recording 501
attempts with times 0..500 the window holds exactly the most recent 500
attempts — times 1..500 — in order. -/
theorem C6_window_fifo :
    (∀ (reload : ScoresData) (s : SaveState) (t : ℤ) (d dt ts : String)
        (m : List (String × DiffData)) (dd : DiffData),
      s.scores.by_difficulty = some m → List.lookup d m = some dd →
      ∃ dd', diff_entry (add_score reload s t d dt ts) d = some dd' ∧
        dd'.all_attempts
          = (dd.all_attempts ++ [(⟨t, ts, dt, d⟩ : Attempt)]).drop
              ((dd.all_attempts.length + 1) - 500) ∧
        dd'.all_attempts.length = min (dd.all_attempts.length + 1) 500) ∧
    (∃ dd', diff_entry (record_fold 501) "normal" = some dd' ∧
      dd'.all_attempts.length = 500 ∧
      dd'.all_attempts
        = (List.range 500).map (fun (i : ℕ) => mkAttempt ((i : ℤ) + 1))) := by
  constructor
  · intro reload s t d dt ts m dd h1 h2
    refine ⟨_, add_score_entry_of_lookup reload s t d dt ts m dd h1 h2,
      add_score_dd_attempts dd t d dt ts, ?_⟩
    rw [add_score_dd_attempts, List.length_drop, List.length_append]
    simp only [List.length_cons, List.length_nil]
    omega
  · obtain ⟨m, dd, h1, h2, h3⟩ := record_fold_attempts 500 le_rfl
    have hatt : (add_score_dd dd (500 : ℤ) "normal" "2026-10-12"
        "2026-10-12T09:00:00").all_attempts
        = (List.range 500).map (fun (i : ℕ) => mkAttempt ((i : ℤ) + 1)) := by
      rw [add_score_dd_attempts, h3]
      have hlenk : ((List.range 500).map (fun (i : ℕ) => mkAttempt (i : ℤ))).length
          = 500 := by simp
      rw [hlenk]
      have hidx : (500 : ℕ) + 1 - 500 = 1 := by norm_num
      rw [hidx]
      have hjoin : (List.range 500).map (fun (i : ℕ) => mkAttempt (i : ℤ))
          ++ [(⟨(500 : ℤ), "2026-10-12T09:00:00", "2026-10-12", "normal"⟩ : Attempt)]
          = (List.range 501).map (fun (i : ℕ) => mkAttempt (i : ℤ)) := by
        rw [List.range_succ, List.map_append]
        rfl
      rw [hjoin, List.range_succ_eq_map, List.map_cons, List.drop_succ_cons,
        List.drop_zero, List.map_map]
      apply List.map_congr_left
      intro i _
      show mkAttempt ((Nat.succ i : ℕ) : ℤ) = mkAttempt ((i : ℤ) + 1)
      congr 1
    rw [record_fold_succ]
    refine ⟨_, ?_, ?_, hatt⟩
    · have := add_score_entry_of_lookup get_default_scores_structure
        (record_fold 500) (500 : ℤ) "normal" "2026-10-12" "2026-10-12T09:00:00"
        m dd h1 h2
      exact this
    · rw [hatt]
      simp

/-- Witness for C6: one record on a fresh save gives a window of length 1. -/
theorem C6_witness :
    ∃ dd', diff_entry (add_score get_default_scores_structure fresh_save 42
        "normal" "2026-10-12" "2026-10-12T09:00:00") "normal" = some dd' ∧
      dd'.all_attempts.length = 1 := by
  obtain ⟨dd', h1, _, h3⟩ := C6_window_fifo.1 get_default_scores_structure
    fresh_save 42 "normal" "2026-10-12" "2026-10-12T09:00:00" _ _ rfl rfl
  refine ⟨dd', h1, ?_⟩
  rw [h3]
  rfl

/-! ## C9 — query tolerance -/

theorem default_values_empty (k : String) (dd : DiffData)
    (hl : List.lookup k ((get_default_scores_structure.by_difficulty).getD [])
      = some dd) : dd = empty_difficulty_data := by
  obtain ⟨k', hk'⟩ := lookup_mem hl
  simp only [get_default_scores_structure, Option.getD_some, List.mem_cons,
    List.mem_singleton, List.not_mem_nil, or_false, Prod.mk.injEq] at hk'
  rcases hk' with ⟨_, h⟩ | ⟨_, h⟩ | ⟨_, h⟩ | ⟨_, h⟩ | ⟨_, h⟩ <;> exact h

/-- C9 (amended): the four guarded queries are tolerant of a missing or
structurally incomplete ledger (they return empty/default values), and
`daily_stats` returns a null result — not an error — for an unknown
difficulty or for a date with zero attempts; but on a loaded document that
lacks the `by_difficulty` key entirely, `daily_stats` raises KeyError
instead of returning a value. -/
theorem C9_query_tolerance :
    (∀ (s : SaveState) (d date : String) (limit : ℕ),
      s.scores.by_difficulty = none →
      (get_best_times s d limit).2 = [] ∧
      (get_recent_attempts s d limit).2 = [] ∧
      (get_statistics s d).2 = empty_statistics ∧
      (get_overall_statistics s).2 = default_overall ∧
      get_daily_stats s d date = .error .keyError) ∧
    (∀ (s : SaveState) (d date : String) (m : List (String × DiffData)),
      s.scores.by_difficulty = some m →
      (List.lookup d m = none → get_daily_stats s d date = .ok none) ∧
      (∀ dd, List.lookup d m = some dd →
        dd.all_attempts.filter (fun a => a.date = date) = [] →
        get_daily_stats s d date = .ok none)) := by
  constructor
  · intro s d date limit h
    refine ⟨?_, ?_, ?_, ?_, ?_⟩
    · unfold get_best_times
      simp only [h, Option.isNone_none, if_true]
      cases hl : List.lookup d ((get_default_scores_structure.by_difficulty).getD []) with
      | none =>
          simp only [get_default_scores_structure, Option.getD_some] at hl ⊢
          rw [hl]
      | some dd =>
          have hdd := default_values_empty d dd hl
          simp only [get_default_scores_structure, Option.getD_some] at hl ⊢
          rw [hl, hdd]
          simp [empty_difficulty_data, empty_statistics]
    · unfold get_recent_attempts
      simp only [h, Option.isNone_none, if_true]
      cases hl : List.lookup d ((get_default_scores_structure.by_difficulty).getD []) with
      | none =>
          simp only [get_default_scores_structure, Option.getD_some] at hl ⊢
          rw [hl]
      | some dd =>
          have hdd := default_values_empty d dd hl
          simp only [get_default_scores_structure, Option.getD_some] at hl ⊢
          rw [hl, hdd]
          simp [empty_difficulty_data, empty_statistics]
    · unfold get_statistics
      simp only [h, Option.isNone_none, if_true]
      cases hl : List.lookup d ((get_default_scores_structure.by_difficulty).getD []) with
      | none =>
          simp only [get_default_scores_structure, Option.getD_some] at hl ⊢
          rw [hl]
      | some dd =>
          have hdd := default_values_empty d dd hl
          simp only [get_default_scores_structure, Option.getD_some] at hl ⊢
          rw [hl, hdd]
          simp [empty_difficulty_data, empty_statistics]
    · unfold get_overall_statistics
      simp only [h, Option.isNone_none, if_true]
      rfl
    · unfold get_daily_stats
      rw [h]
  · intro s d date m h
    constructor
    · intro hl
      unfold get_daily_stats
      rw [h]
      dsimp only
      rw [hl]
    · intro dd hl hf
      unfold get_daily_stats
      rw [h]
      dsimp only
      rw [hl]
      dsimp only
      rw [hf]

/-- Witness for C9: on the corrupt load `daily_stats` errors; on a fresh save
a zero-attempt date yields a null result. -/
theorem C9_witness :
    get_daily_stats bad_save "normal" "2026-10-12" = .error .keyError ∧
    get_daily_stats fresh_save "normal" "2026-10-12" = .ok none ∧
    (get_best_times bad_save "normal" 10).2 = [] :=
  ⟨(C9_query_tolerance.1 bad_save "normal" "2026-10-12" 10 rfl).2.2.2.2,
   (C9_query_tolerance.2 fresh_save "normal" "2026-10-12" _ rfl).2
     empty_difficulty_data rfl rfl,
   (C9_query_tolerance.1 bad_save "normal" "2026-10-12" 10 rfl).1⟩

/-- Counterexample to C9 as stated: loading a parseable scores file that has
none of the recognised keys (for example one holding just an empty object)
leaves `self.scores` without a `by_difficulty` key, and `get_daily_stats`
then raises KeyError instead of returning a value. -/
theorem C9_counterexample :
    load_scores (some (.ok raw_empty)) = ⟨none, none⟩ ∧
    get_daily_stats bad_save "normal" "2026-10-12" = .error .keyError :=
  ⟨rfl, rfl⟩

/-! ## C1 — achievement evaluation on record -/

theorem mem_pySortStrings (a : String) (l : List String) :
    a ∈ pySortStrings l ↔ a ∈ l :=
  (List.perm_insertionSort _ l).mem_iff

theorem mem_unlock_self (s : SaveState) (id : String) :
    id ∈ (unlock_achievement s id).1.achievements.unlocked := by
  unfold unlock_achievement
  split
  · next h => exact h
  · next h =>
      dsimp only
      rw [mem_pySortStrings]
      simp

theorem mem_unlock_mono (s : SaveState) (id x : String)
    (hx : x ∈ s.achievements.unlocked) :
    x ∈ (unlock_achievement s id).1.achievements.unlocked := by
  unfold unlock_achievement
  split
  · exact hx
  · dsimp only
    rw [mem_pySortStrings]
    exact List.mem_append_left _ hx

/-- The achievement evaluator as actually defined (one argument) would
unlock "quick_draw" for a 100 ms attempt — the `add_score` call never
reaches it. -/
theorem check_achievements_unlocks_quick_draw :
    "quick_draw" ∈ (check_achievements fresh_save 100).1.achievements.unlocked := by
  unfold check_achievements
  rw [show get_statistics fresh_save "normal" = (fresh_save, empty_statistics)
    from rfl]
  dsimp only
  rw [if_pos (by decide :
    (100 : ℤ) ≤ 150 ∧ ¬ is_achievement_unlocked fresh_save "lightning_fast")]
  dsimp only
  rw [if_pos (by decide : (100 : ℤ) ≤ 200 ∧
    ¬ is_achievement_unlocked
      (unlock_achievement fresh_save "lightning_fast").1 "quick_draw")]
  dsimp only
  rw [if_neg (by decide : ¬ (10 ≤ empty_statistics.total_attempts))]
  dsimp only
  rw [if_neg (by decide : ¬ (100 ≤ empty_statistics.total_attempts ∧
    ¬ is_achievement_unlocked
      (unlock_achievement (unlock_achievement fresh_save "lightning_fast").1
        "quick_draw").1 "century_club"))]
  dsimp only
  rw [if_neg (by decide : ¬ (500 ≤ empty_statistics.total_attempts ∧
    ¬ is_achievement_unlocked
      (unlock_achievement (unlock_achievement fresh_save "lightning_fast").1
        "quick_draw").1 "dedicated_player"))]
  exact mem_unlock_self _ "quick_draw"

/-- C1: recording a 100 ms attempt on a fresh save persists the attempt
(total_attempts becomes 1) but leaves the unlocked-achievements list empty —
"quick_draw" is not unlocked — because the `check_achievements` call inside
`add_score` passes two positional arguments to a one-parameter method and
raises TypeError, which the surrounding `except` swallows. -/
theorem C1_quick_draw_not_unlocked_by_record :
    (add_score get_default_scores_structure fresh_save 100 "normal"
      "2026-10-12" "2026-10-12T09:00:00").achievements.unlocked = [] ∧
    "quick_draw" ∉ (add_score get_default_scores_structure fresh_save 100
      "normal" "2026-10-12" "2026-10-12T09:00:00").achievements.unlocked ∧
    (∃ dd', diff_entry (add_score get_default_scores_structure fresh_save 100
        "normal" "2026-10-12" "2026-10-12T09:00:00") "normal" = some dd' ∧
      dd'.statistics.total_attempts = 1) ∧
    call_check_achievements_2args fresh_save 100 "normal"
      = .error .typeError := by
  have hach := add_score_achievements get_default_scores_structure fresh_save
    100 "normal" "2026-10-12" "2026-10-12T09:00:00"
  refine ⟨?_, ?_, ?_, rfl⟩
  · rw [hach]
    rfl
  · rw [hach]
    simp [fresh_save]
  · exact ⟨_, add_score_entry_of_lookup get_default_scores_structure fresh_save
      100 "normal" "2026-10-12" "2026-10-12T09:00:00" _ _ rfl rfl, rfl⟩

end ReactionTester
